import Mathlib

set_option maxHeartbeats 1000000

/-!
Verification of the chat-orchestration core of the `aws_cli_mcp` repository.

This file gives a shallow embedding, in Lean 4, of the parts of the code that
the specification's claims are about:

* `ChatService._resolve_tools`, `ChatService.send`, `ChatService.parse` and the
  history handling, from `src/application/services/chat_service.py`;
* the response-envelope hierarchy (`BaseLLMResponse.extract_text`,
  `AzureOpenAIResponse._extract_text`, `AzureOpenAIParsedResponse`) from
  `src/domain/schemas.py`;
* the coercion utility `to_dict` from `src/domain/utils.py`.

Python dictionaries whose values the code inspects dynamically are embedded as
an inductive `PyVal`; Python `Optional` fields become `Option`; Python
exceptions become `Except`; Python truthiness is made explicit wherever the
source branches on it.  Fields of the pydantic envelopes that no claim-relevant
code path ever reads (token-usage counters, sampling floats, and similar
pass-through metadata) are elided from the embedded structures; every field the
extraction and orchestration logic reads is carried.
-/

/-- A conversation turn, `{"role": ..., "content": ...}` in the source
(`ChatTurn` in `src/domain/schemas.py`; the history stores plain dicts of the
same two-field shape). -/
structure ChatTurn where
  role : String
  content : String
deriving DecidableEq, Repr

/-- Projection of an MCP tool-spec dict to the two fields
`ChatService._resolve_tools` reads: `spec.get("server_label", "")` and
`spec.get("allowed_tools", [])`. -/
structure ToolSpec where
  server_label : String
  allowed_tools : List String
deriving DecidableEq, Repr

/-- The `value` field of `ToolSelection` (`Literal["all", "none", "some"]`). -/
inductive SelValue where
  | all
  | none
  | some
deriving DecidableEq, Repr

/-- Python truthiness of the `names` argument: `not names` holds when the
argument is `None` or an empty iterable. -/
def namesFalsy : Option (List String) → Bool
  | Option.none => true
  | Option.some l => l.isEmpty

/-- Python `str.strip()`: leading and trailing whitespace removed (embedded
directly over the character list so that it is kernel-computable). -/
def pyStrip (s : String) : String :=
  String.mk (((s.data.dropWhile Char.isWhitespace).reverse.dropWhile
    Char.isWhitespace).reverse)

/-- The normalized allow-list: `{n.strip() for n in names if n and n.strip()}`
(kept as a list; only membership is ever consulted, so duplicates are
harmless). -/
def wantedOf (ns : List String) : List String :=
  (ns.filter (fun n => n != "" && pyStrip n != "")).map pyStrip

/-- The per-spec test in the filtering loop of `_resolve_tools`:
`label in wanted or (allowed & wanted)` where
`label = str(spec.get("server_label", "")).strip()` and
`allowed = {str(t).strip() for t in spec.get("allowed_tools", [])}`. -/
def specMatches (wanted : List String) (spec : ToolSpec) : Bool :=
  let label := pyStrip spec.server_label
  let allowed := spec.allowed_tools.map pyStrip
  wanted.contains label || allowed.any (fun t => wanted.contains t)

/-- `ChatService._resolve_tools(selection, names)`, with the client's
registered catalog passed explicitly (the source reads it from
`self.client.tools`).  Returns `none` where the source returns `None`. -/
def resolveTools (tools : List ToolSpec) (selection : SelValue)
    (names : Option (List String)) : Option (List ToolSpec) :=
  if selection = SelValue.none then Option.none
  else if selection = SelValue.all ∨ namesFalsy names = true then
    (if tools.isEmpty then Option.none else Option.some tools)
  else
    let wanted := wantedOf (names.getD [])
    if wanted.isEmpty then Option.none
    else
      let selected := tools.filter (specMatches wanted)
      if selected.isEmpty then Option.none else Option.some selected

/-- Spec-side inclusion condition for one tool spec, written from the claim:
the spec's (trimmed) label is in the normalized set, or the intersection of
its (trimmed) capability set with the normalized set is non-empty. -/
def specIncluded (wanted : List String) (spec : ToolSpec) : Prop :=
  pyStrip spec.server_label ∈ wanted ∨
    ∃ c ∈ spec.allowed_tools.map pyStrip, c ∈ wanted

/-- One element of a message item's `content` list
(`AzureContentItem` in `src/domain/schemas.py`): `type : str`,
`text : Optional[str]`; the `annotations` field is never read. -/
structure AzureContentItem where
  type : String
  text : Option String := Option.none
deriving DecidableEq, Repr

/-- An item of the Azure `output` list (`AzureOutputItem`): message items carry
`role`/`content`; tool events leave them `None`.  The tool-event fields
(`tool_name`, `call_id`, `error`) and `status` are never read by extraction and
are elided. -/
structure AzureOutputItem where
  id : String
  type : String
  role : Option String := Option.none
  content : Option (List AzureContentItem) := Option.none
deriving DecidableEq, Repr

/-- The fragments one output item contributes in the primary pass of
`AzureOpenAIResponse._extract_text`: skipped unless `item.type == "message"`
and `item.role == "assistant"` and `item.content` is truthy; then every
content element whose `text` is a string with non-empty strip contributes its
(original, untrimmed) text. -/
def fragmentsOf (item : AzureOutputItem) : List String :=
  if item.type = "message" ∧ item.role = Option.some "assistant" then
    match item.content with
    | Option.none => []
    | Option.some cs => (cs.filterMap AzureContentItem.text).filter (fun t => pyStrip t != "")
  else []

/-- The fallback loop of `_extract_text`: the first item whose `content` is
truthy (a non-empty list) and whose first content element's `text` is a string
yields that text; items failing either test are passed over. -/
def fallbackScan : List AzureOutputItem → Option String
  | [] => Option.none
  | item :: rest =>
    match item.content with
    | Option.some (c0 :: _) =>
      (match c0.text with
       | Option.some t => Option.some t
       | Option.none => fallbackScan rest)
    | _ => fallbackScan rest

/-- `AzureOpenAIResponse._extract_text` on the `output` list: `None` when the
list is empty; otherwise the blank-line join of the primary-pass fragments if
any, else the fallback scan. -/
def azureExtractAux (output : List AzureOutputItem) : Option String :=
  if output.isEmpty then Option.none
  else
    let texts := (output.map fragmentsOf).flatten
    if texts.isEmpty then fallbackScan output
    else Option.some (String.intercalate "\n\n" texts)

/-- Python single-quoted rendering of a string, as in pydantic reprs. -/
def pyQuote (s : String) : String := "\x27" ++ s ++ "\x27"

/-- Rendering of an `Optional[str]` field inside a pydantic repr. -/
def optStrForm : Option String → String
  | Option.none => "None"
  | Option.some s => pyQuote s

/-- Repr of one content element, as pydantic renders nested models. -/
def AzureContentItem.strForm (c : AzureContentItem) : String :=
  "AzureContentItem(type=" ++ pyQuote c.type ++ ", text=" ++ optStrForm c.text ++ ")"

/-- Repr of one output item, as pydantic renders nested models. -/
def AzureOutputItem.strForm (i : AzureOutputItem) : String :=
  "AzureOutputItem(id=" ++ pyQuote i.id ++ ", type=" ++ pyQuote i.type ++
    ", role=" ++ optStrForm i.role ++ ", content=" ++
    (match i.content with
     | Option.none => "None"
     | Option.some cs =>
       "[" ++ String.intercalate ", " (cs.map AzureContentItem.strForm) ++ "]") ++ ")"

/-- The Azure response envelope (`AzureOpenAIResponse`), restricted to the
fields the claim-relevant code reads: `output` drives extraction, and the
leading scalar fields drive the string form.  The remaining validated fields
(sampling floats, token usage, reasoning metadata, ...) are pass-through data
never read by extraction or orchestration and are elided; in the real string
form their rendering follows the fields carried here, which can only lengthen
the string. -/
structure AzureOpenAIResponse where
  id : String
  object : String := "response"
  created_at : Int := 0
  status : String := "completed"
  model : String := ""
  output : List AzureOutputItem
deriving DecidableEq, Repr

/-- The model's `str(self)`: pydantic v2 renders a space-joined `field=value`
sequence in declaration order, beginning with `id`. -/
def AzureOpenAIResponse.strForm (r : AzureOpenAIResponse) : String :=
  "id=" ++ pyQuote r.id ++ " object=" ++ pyQuote r.object ++
    " created_at=" ++ toString r.created_at ++ " status=" ++ pyQuote r.status ++
    " model=" ++ pyQuote r.model ++ " output=[" ++
    String.intercalate ", " (r.output.map AzureOutputItem.strForm) ++ "]"

/-- `BaseLLMResponse.extract_text` specialised to the Azure envelope: the
provider-specific `_extract_text` result when it is a non-empty string,
otherwise `str(self)`. -/
def AzureOpenAIResponse.extract_text (r : AzureOpenAIResponse) : String :=
  match azureExtractAux r.output with
  | Option.some t => if t != "" then t else r.strForm
  | Option.none => r.strForm

/-- Dynamically-typed Python values as the coercion and parse code sees them:
`pymodel` is a pydantic `BaseModel` instance tagged with a class identifier
(`model_dump` yields its field mapping); `pyobj` is a non-pydantic SDK object
carrying whichever of the duck-typed dump capabilities (`model_dump`,
`to_dict`, `dict`, `json`) it exposes, together with its `str()` form. -/
inductive PyVal where
  | pynone
  | pybool (b : Bool)
  | pyint (n : Int)
  | pystr (s : String)
  | pylist (xs : List PyVal)
  | pydict (kvs : List (String × PyVal))
  | pymodel (cls : Nat) (fields : List (String × PyVal))
  | pyobj (modelDump toDictAttr dictAttr : Option (List (String × PyVal)))
      (jsonAttr : Option String) (srepr : String)

/-- Python truthiness, exactly where the source branches on a value. -/
def PyVal.truthy : PyVal → Bool
  | PyVal.pynone => false
  | PyVal.pybool b => b
  | PyVal.pyint n => n != 0
  | PyVal.pystr s => s != ""
  | PyVal.pylist xs => !xs.isEmpty
  | PyVal.pydict kvs => !kvs.isEmpty
  | PyVal.pymodel _ _ => true
  | PyVal.pyobj _ _ _ _ _ => true

mutual

/-- Python `repr()` of a value (containers render their elements with this). -/
def PyVal.reprForm : PyVal → String
  | PyVal.pynone => "None"
  | PyVal.pybool true => "True"
  | PyVal.pybool false => "False"
  | PyVal.pyint n => toString n
  | PyVal.pystr s => pyQuote s
  | PyVal.pylist xs => "[" ++ String.intercalate ", " (PyVal.reprList xs) ++ "]"
  | PyVal.pydict kvs => "\x7b" ++ String.intercalate ", " (PyVal.reprPairs kvs) ++ "\x7d"
  | PyVal.pymodel cls fields =>
    "Model" ++ toString cls ++ "(" ++ String.intercalate ", " (PyVal.reprFields fields) ++ ")"
  | PyVal.pyobj _ _ _ _ srepr => srepr

/-- Reprs of the elements of a list value. -/
def PyVal.reprList : List PyVal → List String
  | [] => []
  | v :: vs => PyVal.reprForm v :: PyVal.reprList vs

/-- Reprs of the `'key': value` members of a dict value. -/
def PyVal.reprPairs : List (String × PyVal) → List String
  | [] => []
  | (k, v) :: kvs => (pyQuote k ++ ": " ++ PyVal.reprForm v) :: PyVal.reprPairs kvs

/-- Reprs of the `field=value` members of a model value. -/
def PyVal.reprFields : List (String × PyVal) → List String
  | [] => []
  | (k, v) :: kvs => (k ++ "=" ++ PyVal.reprForm v) :: PyVal.reprFields kvs

end

/-- Python `str()` of a value: bare for strings, `repr()` otherwise. -/
def PyVal.strForm : PyVal → String
  | PyVal.pystr s => s
  | v => PyVal.reprForm v


/-- Errors raised along the orchestration pipeline: `json.JSONDecodeError`
from `json.loads`, pydantic `ValidationError`, and provider/SDK failures. -/
inductive PyErr where
  | jsonDecodeError (msg : String)
  | validationError (msg : String)
  | providerError (msg : String)
deriving DecidableEq, Repr

/-- Leading-whitespace skipping of the JSON scanner. -/
def skipWs : List Char → List Char
  | c :: rest =>
    if c = ' ' ∨ c = '\t' ∨ c = '\n' ∨ c = '\r' then skipWs rest else c :: rest
  | [] => []

/-- Scanner for the body of a JSON string literal (after the opening quote),
returning the decoded contents and the input past the closing quote.  The
basic escapes are handled; `\uXXXX` escapes are not modelled (no claim
involves them). -/
def scanJsonString (fuel : Nat) (cs : List Char) (acc : List Char) :
    Option (String × List Char) :=
  match fuel with
  | 0 => Option.none
  | Nat.succ fuel =>
    match cs with
    | [] => Option.none
    | '"' :: rest => Option.some (String.mk acc.reverse, rest)
    | '\\' :: e :: rest =>
      (match e with
       | '"' => scanJsonString fuel rest ('"' :: acc)
       | '\\' => scanJsonString fuel rest ('\\' :: acc)
       | '/' => scanJsonString fuel rest ('/' :: acc)
       | 'n' => scanJsonString fuel rest ('\n' :: acc)
       | 't' => scanJsonString fuel rest ('\t' :: acc)
       | 'r' => scanJsonString fuel rest ('\r' :: acc)
       | _ => Option.none)
    | c :: rest => scanJsonString fuel rest (c :: acc)

/-- Scanner for a JSON integer literal (an optional minus sign and digits).
Fractional and exponent forms are not modelled: no claim involves them, and
the concrete JSON texts in this development are integral. -/
def scanJsonInt (cs : List Char) : Option (Int × List Char) :=
  let (neg, cs) := match cs with
    | '-' :: rest => (true, rest)
    | _ => (false, cs)
  let digits := cs.takeWhile Char.isDigit
  let rest := cs.dropWhile Char.isDigit
  if digits.isEmpty then Option.none
  else
    let n : Nat := digits.foldl (fun a c => a * 10 + (c.toNat - 48)) 0
    Option.some (if neg then -(n : Int) else (n : Int), rest)

mutual

/-- Recursive-descent scanner for one JSON value, the model of the grammar
`json.loads` accepts.  Fuel bounds the recursion; `jsonLoads` supplies more
fuel than any input of its length can consume. -/
def parseJsonVal (fuel : Nat) (cs : List Char) : Option (PyVal × List Char) :=
  match fuel with
  | 0 => Option.none
  | Nat.succ fuel =>
    match skipWs cs with
    | [] => Option.none
    | '"' :: rest =>
      (match scanJsonString (rest.length + 1) rest [] with
       | Option.some (s, rest) => Option.some (PyVal.pystr s, rest)
       | Option.none => Option.none)
    | '\x7b' :: rest =>
      (match skipWs rest with
       | '\x7d' :: rest => Option.some (PyVal.pydict [], rest)
       | cs => parseJsonMembers fuel cs [])
    | '[' :: rest =>
      (match skipWs rest with
       | ']' :: rest => Option.some (PyVal.pylist [], rest)
       | cs => parseJsonItems fuel cs [])
    | 'n' :: 'u' :: 'l' :: 'l' :: rest => Option.some (PyVal.pynone, rest)
    | 't' :: 'r' :: 'u' :: 'e' :: rest => Option.some (PyVal.pybool true, rest)
    | 'f' :: 'a' :: 'l' :: 's' :: 'e' :: rest => Option.some (PyVal.pybool false, rest)
    | cs =>
      (match scanJsonInt cs with
       | Option.some (n, rest) => Option.some (PyVal.pyint n, rest)
       | Option.none => Option.none)

/-- Scanner for the `"key": value` members of a JSON object, after the
opening brace (the empty object is handled by the caller). -/
def parseJsonMembers (fuel : Nat) (cs : List Char) (acc : List (String × PyVal)) :
    Option (PyVal × List Char) :=
  match fuel with
  | 0 => Option.none
  | Nat.succ fuel =>
    match skipWs cs with
    | '"' :: rest =>
      (match scanJsonString (rest.length + 1) rest [] with
       | Option.some (k, rest) =>
         (match skipWs rest with
          | ':' :: rest =>
            (match parseJsonVal fuel rest with
             | Option.some (v, rest) =>
               (match skipWs rest with
                | ',' :: rest => parseJsonMembers fuel rest ((k, v) :: acc)
                | '\x7d' :: rest => Option.some (PyVal.pydict ((k, v) :: acc).reverse, rest)
                | _ => Option.none)
             | Option.none => Option.none)
          | _ => Option.none)
       | Option.none => Option.none)
    | _ => Option.none

/-- Scanner for the comma-separated items of a JSON array, after the opening
bracket (the empty array is handled by the caller). -/
def parseJsonItems (fuel : Nat) (cs : List Char) (acc : List PyVal) :
    Option (PyVal × List Char) :=
  match fuel with
  | 0 => Option.none
  | Nat.succ fuel =>
    match parseJsonVal fuel cs with
    | Option.some (v, rest) =>
      (match skipWs rest with
       | ',' :: rest => parseJsonItems fuel rest (v :: acc)
       | ']' :: rest => Option.some (PyVal.pylist ((v :: acc).reverse), rest)
       | _ => Option.none)
    | Option.none => Option.none

end

/-- `json.loads`: scan one value and require only whitespace after it.  The
two error messages are the ones CPython's `json` module raises. -/
def jsonLoads (s : String) : Except PyErr PyVal :=
  match parseJsonVal (2 * s.length + 4) s.data with
  | Option.some (v, rest) =>
    if (skipWs rest).isEmpty then Except.ok v
    else Except.error (PyErr.jsonDecodeError "Extra data")
  | Option.none => Except.error (PyErr.jsonDecodeError "Expecting value")

/-- `to_dict` from `src/domain/utils.py`: the ordered coercion chain — dict
as-is; pydantic model dumped; string through `json.loads` (uncaught); then the
duck-typed `model_dump`/`to_dict`/`dict`/`json` capabilities; last resort
`json.loads(str(value))`, wrapping under `"raw"` only when that parse fails. -/
def to_dict (value : PyVal) : Except PyErr PyVal :=
  match value with
  | PyVal.pydict kvs => Except.ok (PyVal.pydict kvs)
  | PyVal.pymodel _ fields => Except.ok (PyVal.pydict fields)
  | PyVal.pystr s => jsonLoads s
  | PyVal.pyobj (Option.some d) _ _ _ _ => Except.ok (PyVal.pydict d)
  | PyVal.pyobj Option.none (Option.some d) _ _ _ => Except.ok (PyVal.pydict d)
  | PyVal.pyobj Option.none Option.none (Option.some d) _ _ => Except.ok (PyVal.pydict d)
  | PyVal.pyobj Option.none Option.none Option.none (Option.some js) _ => jsonLoads js
  | v =>
    match jsonLoads v.strForm with
    | Except.ok j => Except.ok j
    | Except.error _ => Except.ok (PyVal.pydict [("raw", PyVal.pystr v.strForm)])

/-- The structured-output envelope (`AzureOpenAIParsedResponse`): the plain
envelope's fields plus the two optional structured fields, `Optional[Any]`
defaulting to `None`. -/
structure AzureOpenAIParsedResponse where
  base : AzureOpenAIResponse
  output_parsed : PyVal := PyVal.pynone
  parsed : PyVal := PyVal.pynone

/-- The field the structured dispatch starts from, line 253 of
`chat_service.py`: `getattr(resp_obj, "output_parsed", None) or
getattr(resp_obj, "parsed", None)` — Python `or` yields the first operand
when truthy, else the second. -/
def primaryStructured (r : AzureOpenAIParsedResponse) : PyVal :=
  if r.output_parsed.truthy then r.output_parsed else r.parsed

/-- What `ChatService.parse` hands back: either a structured value (the parsed
model instance, or the result of `text_format.model_validate`) or the
validated envelope object itself. -/
inductive ParseResult where
  | structured (v : PyVal)
  | envelope (r : AzureOpenAIParsedResponse)

namespace ChatService

/-- `ChatService.send`.  The provider gateway (`MCPClient.create_response`)
and the pydantic validation of the coerced payload into the envelope schema
(`response_model.model_validate`) are the two external effects, passed as
function-valued arguments; the registered catalog is passed explicitly.  The
result pairs the post-call stored history with the outcome: the source
composes the gateway input from a snapshot copy of the history
(`messages = self.history` then `messages.append(...)`), so the stored
history mutates only through the two `add_turn` calls on the success path. -/
def send (history : List ChatTurn) (prompt : String)
    (catalog : List ToolSpec) (toolSelection : SelValue) (toolNames : Option (List String))
    (createResponse : List ChatTurn → Option (List ToolSpec) → Except PyErr PyVal)
    (validateEnvelope : PyVal → Except PyErr AzureOpenAIResponse) :
    List ChatTurn × Except PyErr String :=
  let messages := history ++ [⟨"user", prompt⟩]
  let tools := resolveTools catalog toolSelection toolNames
  match createResponse messages tools with
  | Except.error e => (history, Except.error e)
  | Except.ok raw =>
    match to_dict raw with
    | Except.error e => (history, Except.error e)
    | Except.ok payload =>
      match validateEnvelope payload with
      | Except.error e => (history, Except.error e)
      | Except.ok respObj =>
        let text := respObj.extract_text
        if text != "" then
          (history ++ [⟨"user", prompt⟩, ⟨"assistant", text⟩], Except.ok text)
        else (history, Except.ok text)

/-- `ChatService.parse`.  As for `send`, the gateway
(`MCPClient.parse_response`), the envelope validation
(`parsed_response_model.model_validate`) and the target-schema validation
(`text_format.model_validate`) are function-valued arguments; `textFormatCls`
is not needed by the code itself (the source checks `isinstance(parsed,
BaseModel)`, not membership in `text_format`). -/
def parse (history : List ChatTurn) (prompt : String)
    (catalog : List ToolSpec) (toolSelection : SelValue) (toolNames : Option (List String))
    (parseResponse : List ChatTurn → Option (List ToolSpec) → Except PyErr PyVal)
    (validateParsed : PyVal → Except PyErr AzureOpenAIParsedResponse)
    (textFormatValidate : List (String × PyVal) → Except PyErr PyVal) :
    List ChatTurn × Except PyErr ParseResult :=
  let messages := history ++ [⟨"user", prompt⟩]
  let tools := resolveTools catalog toolSelection toolNames
  match parseResponse messages tools with
  | Except.error e => (history, Except.error e)
  | Except.ok raw =>
    match to_dict raw with
    | Except.error e => (history, Except.error e)
    | Except.ok payload =>
      match validateParsed payload with
      | Except.error e => (history, Except.error e)
      | Except.ok respObj =>
        let history1 := history ++ [⟨"user", prompt⟩]
        match primaryStructured respObj with
        | PyVal.pymodel c f => (history1, Except.ok (ParseResult.structured (PyVal.pymodel c f)))
        | PyVal.pydict m =>
          (match textFormatValidate m with
           | Except.ok v => (history1, Except.ok (ParseResult.structured v))
           | Except.error e => (history1, Except.error e))
        | _ => (history1, Except.ok (ParseResult.envelope respObj))

end ChatService

/-- Aliasing model for the history property.  The stored history is a list of
references into a heap of turn records (Python dicts are reference values);
`history` returns `list(self._history)` — a fresh list containing the same
references. -/
structure HistoryWorld where
  store : Nat → ChatTurn
  internal : List Nat

/-- The `history` property: a fresh list of the same element references. -/
def readHistorySnapshot (w : HistoryWorld) : List Nat := w.internal

/-- What a subsequent read of the stored history denotes: each reference
dereferenced in the current heap. -/
def internalHistoryView (w : HistoryWorld) : List ChatTurn := w.internal.map w.store

/-- Mutations a caller can apply to a returned snapshot: structural edits of
the snapshot list itself (insert/remove), and in-place mutation of the turn
record an element refers to (e.g. `snapshot[i]["content"] = ...`). -/
inductive SnapMutation where
  | insertRef (i : Nat) (a : Nat)
  | removeRef (i : Nat)
  | setTurn (i : Nat) (t : ChatTurn)

/-- Effect of one caller mutation on the heap and on the caller's snapshot
list.  Structural edits touch only the caller's list; `setTurn` writes the
shared heap cell the snapshot element refers to. -/
def applyMutation (w : HistoryWorld) (snap : List Nat) :
    SnapMutation → HistoryWorld × List Nat
  | SnapMutation.insertRef i a => (w, snap.insertIdx i a)
  | SnapMutation.removeRef i => (w, snap.eraseIdx i)
  | SnapMutation.setTurn i t =>
    match snap.get? i with
    | Option.some a => ({ w with store := fun x => if x = a then t else w.store x }, snap)
    | Option.none => (w, snap)

/-- A sequence of caller mutations, applied left to right. -/
def applyMutations (w : HistoryWorld) (snap : List Nat) :
    List SnapMutation → HistoryWorld × List Nat
  | [] => (w, snap)
  | m :: ms =>
    let ws := applyMutation w snap m
    applyMutations ws.1 ws.2 ms

/-- Mutations that edit only the snapshot list, never a referred-to record. -/
def structuralOnly : SnapMutation → Bool
  | SnapMutation.setTurn _ _ => false
  | _ => true

/-- Spec-side primary pass, written from the claim: the text of every content
fragment of every output item whose discriminator equals `"message"` and whose
role equals `"assistant"`, keeping fragments whose post-trim text is
non-empty, in encounter order. -/
def claimedPrimaryTexts (output : List AzureOutputItem) : List String :=
  (output.filter (fun i => i.type == "message" && i.role == Option.some "assistant")).flatMap
    (fun i => ((i.content.getD []).filterMap AzureContentItem.text).filter
      (fun t => pyStrip t != ""))

/-- Spec-side fallback, written from the claim as stated: find the first item
that has any content, and return the first non-empty text found in that
item. -/
def claimedFallback (output : List AzureOutputItem) : Option String :=
  match output.find? (fun i => !(i.content.getD []).isEmpty) with
  | Option.none => Option.none
  | Option.some item =>
    ((item.content.getD []).filterMap AzureContentItem.text).find? (fun t => t != "")

/-- Spec-side public extraction, written from the claim as stated: the
blank-line join of the primary texts if any; else the fallback's text; else
the whole object's string form. -/
def claimedExtractText (r : AzureOpenAIResponse) : String :=
  let texts := claimedPrimaryTexts r.output
  if !texts.isEmpty then String.intercalate "\n\n" texts
  else
    match claimedFallback r.output with
    | Option.some t => t
    | Option.none => r.strForm

/-- Amended fallback: the scan considers, in order, every item whose content
list is non-empty and whose first fragment's text is a string, and returns
that first fragment's text (later fragments of an item are never consulted;
the text may be empty or whitespace). -/
def claimedFallbackAmended (output : List AzureOutputItem) : Option String :=
  match output.find? (fun i =>
      !(i.content.getD []).isEmpty &&
        (((i.content.getD []).headD { type := "" }).text).isSome) with
  | Option.none => Option.none
  | Option.some item => ((item.content.getD []).headD { type := "" }).text

/-- Spec-side structured dispatch for `parse`, written from the claim as
stated: (a) if the primary structured field is an instance of the
caller-supplied `text_format` class, return it; (b) else if it is a plain
mapping, validate it against `text_format`; (c) else return the envelope
object itself. -/
def claimedParseDispatch (textFormatCls : Nat)
    (textFormatValidate : List (String × PyVal) → Except PyErr PyVal)
    (r : AzureOpenAIParsedResponse) : Except PyErr ParseResult :=
  match primaryStructured r with
  | PyVal.pymodel c f =>
    if c = textFormatCls then Except.ok (ParseResult.structured (PyVal.pymodel c f))
    else Except.ok (ParseResult.envelope r)
  | PyVal.pydict m => (textFormatValidate m).map ParseResult.structured
  | _ => Except.ok (ParseResult.envelope r)

/-- Concrete output item exercising the fallback: no assistant/message
discriminator, first fragment with no text, second fragment with text. -/
def cexFallbackItem : AzureOutputItem :=
  { id := "i1", type := "tool_result",
    content := Option.some [{ type := "output_text" },
      { type := "output_text", text := Option.some "hello" }] }

/-- Concrete envelope whose only item is `cexFallbackItem`. -/
def cexFallbackResponse : AzureOpenAIResponse :=
  { id := "resp1", output := [cexFallbackItem] }

/-- Concrete assistant message item carrying the text `"ok-text"`. -/
def okTextItem : AzureOutputItem :=
  { id := "m1", type := "message", role := Option.some "assistant",
    content := Option.some [{ type := "output_text", text := Option.some "ok-text" }] }

/-- Concrete envelope that extracts to `"ok-text"` through the primary pass. -/
def okTextResponse : AzureOpenAIResponse :=
  { id := "resp2", output := [okTextItem] }

/-- Concrete parsed envelope whose `output_parsed` is a model instance of a
class other than the caller's `text_format`. -/
def cexParsedResponse : AzureOpenAIParsedResponse :=
  { base := { id := "resp3", output := [] }, output_parsed := PyVal.pymodel 1 [] }

/-- Concrete parsed envelope with neither structured field populated. -/
def plainParsedResponse : AzureOpenAIParsedResponse :=
  { base := { id := "resp4", output := [] } }

/-- Concrete parsed envelope whose `output_parsed` is a plain mapping. -/
def dictParsedResponse : AzureOpenAIParsedResponse :=
  { base := { id := "resp5", output := [] },
    output_parsed := PyVal.pydict [("foo", PyVal.pyint 7)] }

/-- Concrete heap-and-history state with one stored turn at address 0. -/
def sampleWorld : HistoryWorld :=
  { store := fun _ => { role := "user", content := "hi" }, internal := [0] }

/-- The `isinstance(parsed, BaseModel)` test of line 254: the value is a
pydantic model instance of any class. -/
def isModelInstance : PyVal → Bool
  | PyVal.pymodel _ _ => true
  | _ => false

/-- The `isinstance(parsed, dict)` test of line 256: a plain mapping. -/
def isPlainMapping : PyVal → Bool
  | PyVal.pydict _ => true
  | _ => false

theorem specMatches_iff (wanted : List String) (spec : ToolSpec) :
    specMatches wanted spec = true ↔ specIncluded wanted spec := by
  simp [specMatches, specIncluded, List.contains, List.elem_iff]

theorem wantedOf_ne_nil_of_mem (ns : List String) (h : wantedOf ns ≠ []) : ns ≠ [] := by
  intro hn; subst hn; exact h rfl

/-- C3: with policy `some` and a non-empty normalized allow-list, a ToolSpec
is included exactly when its trimmed label is in the normalized set or its
trimmed capability set meets the normalized set; the included specs form a
sublist of the catalog (catalog order preserved), and when nothing matches
the result is absent. -/
theorem resolve_some_label_or_capability (tools : List ToolSpec) (ns : List String)
    (h : wantedOf ns ≠ []) :
    match resolveTools tools SelValue.some (Option.some ns) with
    | Option.none => ∀ s ∈ tools, ¬ specIncluded (wantedOf ns) s
    | Option.some l =>
        l ≠ [] ∧ l.Sublist tools ∧
          ∀ s, s ∈ l ↔ s ∈ tools ∧ specIncluded (wantedOf ns) s := by
  have hne : ns ≠ [] := wantedOf_ne_nil_of_mem ns h
  have hfalsy : namesFalsy (Option.some ns) = false := by
    cases ns with
    | nil => exact absurd rfl hne
    | cons a l => rfl
  unfold resolveTools
  rw [if_neg (by decide), if_neg (by simp [hfalsy])]
  simp only [Option.getD]
  rw [if_neg (by simpa using h)]
  by_cases hsel : (tools.filter (specMatches (wantedOf ns))).isEmpty
  · rw [if_pos hsel]
    intro s hs hinc
    have : s ∈ tools.filter (specMatches (wantedOf ns)) :=
      List.mem_filter.mpr ⟨hs, (specMatches_iff _ _).mpr hinc⟩
    rw [List.isEmpty_iff.mp hsel] at this
    exact absurd this (List.not_mem_nil s)
  · rw [if_neg hsel]
    refine ⟨by simpa [List.isEmpty_iff] using hsel, List.filter_sublist tools, fun s => ?_⟩
    rw [List.mem_filter, specMatches_iff]

/-- Witness for the C3 theorem at a concrete catalog and allow-list: the spec
labelled `aws-s3` with capability `list_buckets` is included both by its label
and via a capability name. -/
theorem resolve_some_label_or_capability_witness :
    wantedOf ["list_buckets"] ≠ [] ∧
      (match resolveTools [⟨"aws-s3", ["list_buckets"]⟩] SelValue.some
          (Option.some ["list_buckets"]) with
       | Option.none => ∀ s ∈ [(⟨"aws-s3", ["list_buckets"]⟩ : ToolSpec)],
           ¬ specIncluded (wantedOf ["list_buckets"]) s
       | Option.some l =>
           l ≠ [] ∧ l.Sublist [⟨"aws-s3", ["list_buckets"]⟩] ∧
             ∀ s, s ∈ l ↔ s ∈ [(⟨"aws-s3", ["list_buckets"]⟩ : ToolSpec)] ∧
               specIncluded (wantedOf ["list_buckets"]) s) :=
  ⟨by decide, resolve_some_label_or_capability [⟨"aws-s3", ["list_buckets"]⟩]
    ["list_buckets"] (by decide)⟩

/-- C6: policy `none` disables tools; policy `all`, or policy `some` with a
missing/empty allow-list, yields the full catalog when non-empty and absent
when empty; policy `some` with a (non-empty) allow-list of only
whitespace/empty strings yields absent. -/
theorem resolve_policy_modes (tools : List ToolSpec) (names : Option (List String))
    (ns : List String) (h1 : ns ≠ []) (h2 : ∀ n ∈ ns, pyStrip n = "") :
    resolveTools tools SelValue.none names = Option.none
    ∧ resolveTools tools SelValue.all names =
        (if tools.isEmpty then Option.none else Option.some tools)
    ∧ (namesFalsy names = true →
        resolveTools tools SelValue.some names =
          (if tools.isEmpty then Option.none else Option.some tools))
    ∧ resolveTools tools SelValue.some (Option.some ns) = Option.none := by
  refine ⟨rfl, ?_, ?_, ?_⟩
  · unfold resolveTools
    rw [if_neg (by decide), if_pos (Or.inl rfl)]
  · intro hf
    unfold resolveTools
    rw [if_neg (by decide), if_pos (Or.inr hf)]
  · have hw : wantedOf ns = [] := by
      unfold wantedOf
      rw [List.filter_eq_nil_iff.mpr ?_]
      · rfl
      · intro n hn
        simp [h2 n hn]
    unfold resolveTools
    rw [if_neg (by decide)]
    rw [if_neg ?_]
    · simp only [Option.getD]
      rw [if_pos (by simp [hw])]
    · rintro (h | h)
      · exact absurd h (by decide)
      · simp only [namesFalsy, List.isEmpty_iff] at h
        exact h1 h

/-- Witness for the C6 theorem at a concrete catalog and a whitespace-only
allow-list. -/
theorem resolve_policy_modes_witness :
    (["  ", ""] : List String) ≠ [] ∧ (∀ n ∈ (["  ", ""] : List String), pyStrip n = "") ∧
      resolveTools [⟨"aws-s3", ["list_buckets"]⟩] SelValue.none Option.none = Option.none
    ∧ resolveTools [⟨"aws-s3", ["list_buckets"]⟩] SelValue.all Option.none =
        (if ([(⟨"aws-s3", ["list_buckets"]⟩ : ToolSpec)] : List ToolSpec).isEmpty
          then Option.none else Option.some [⟨"aws-s3", ["list_buckets"]⟩])
    ∧ (namesFalsy Option.none = true →
        resolveTools [⟨"aws-s3", ["list_buckets"]⟩] SelValue.some Option.none =
          (if ([(⟨"aws-s3", ["list_buckets"]⟩ : ToolSpec)] : List ToolSpec).isEmpty
            then Option.none else Option.some [⟨"aws-s3", ["list_buckets"]⟩]))
    ∧ resolveTools [⟨"aws-s3", ["list_buckets"]⟩] SelValue.some
        (Option.some ["  ", ""]) = Option.none := by
  refine ⟨by decide, by decide, ?_⟩
  exact resolve_policy_modes [⟨"aws-s3", ["list_buckets"]⟩] Option.none ["  ", ""]
    (by decide) (by decide)

theorem append_length_le (s t : String) : s.length ≤ (s ++ t).length := by
  simp [String.length_append]

theorem strForm_ne_empty (r : AzureOpenAIResponse) : r.strForm ≠ "" := by
  intro h
  have hl := congrArg String.length h
  simp only [AzureOpenAIResponse.strForm, String.length_append] at hl
  have h3 : String.length "id=" = 3 := rfl
  have h0 : String.length "" = 0 := rfl
  omega

theorem extract_text_ne_empty (r : AzureOpenAIResponse) : r.extract_text ≠ "" := by
  unfold AzureOpenAIResponse.extract_text
  cases h : azureExtractAux r.output with
  | none => exact strForm_ne_empty r
  | some t =>
    by_cases ht : t = ""
    · subst ht
      simp only [bne_self_eq_false, if_false, Bool.false_eq_true]
      exact strForm_ne_empty r
    · simp only [if_pos (bne_iff_ne.mpr ht)]
      exact ht

theorem intercalate_go_length (s acc : String) (as : List String) :
    acc.length ≤ (String.intercalate.go acc s as).length := by
  induction as generalizing acc with
  | nil => simp [String.intercalate.go]
  | cons a as ih =>
    rw [String.intercalate.go]
    calc acc.length ≤ (acc ++ s ++ a).length := by
          simp [String.length_append]
          omega
      _ ≤ _ := ih (acc ++ s ++ a)

theorem length_zero_eq_empty (s : String) (h : s.length = 0) : s = "" := by
  cases s with
  | mk data =>
    cases data with
    | nil => rfl
    | cons c cs => simp [String.length] at h

theorem intercalate_ne_empty (t : String) (ts : List String) (h : t ≠ "") :
    String.intercalate "\n\n" (t :: ts) ≠ "" := by
  intro he
  have h1 : t.length ≤ (String.intercalate "\n\n" (t :: ts)).length := by
    rw [String.intercalate]
    exact intercalate_go_length _ _ _
  rw [he] at h1
  have h2 : t.length = 0 := Nat.le_zero.mp h1
  exact h (length_zero_eq_empty t h2)

theorem fragmentsOf_eq (i : AzureOutputItem) :
    fragmentsOf i =
      (if i.type == "message" && i.role == Option.some "assistant" then
        ((i.content.getD []).filterMap AzureContentItem.text).filter
          (fun t => pyStrip t != "")
      else []) := by
  by_cases h : (i.type == "message" && i.role == Option.some "assistant") = true
  · have hp : i.type = "message" ∧ i.role = Option.some "assistant" := by
      simpa [Bool.and_eq_true, beq_iff_eq] using h
    rw [if_pos h]
    unfold fragmentsOf
    rw [if_pos hp]
    cases hc : i.content with
    | none => simp
    | some cs => simp
  · have hp : ¬ (i.type = "message" ∧ i.role = Option.some "assistant") := by
      simpa [Bool.and_eq_true, beq_iff_eq] using h
    rw [if_neg h]
    unfold fragmentsOf
    rw [if_neg hp]

theorem primary_flatten_eq (output : List AzureOutputItem) :
    (output.map fragmentsOf).flatten = claimedPrimaryTexts output := by
  induction output with
  | nil => rfl
  | cons i rest ih =>
    unfold claimedPrimaryTexts
    simp only [List.map_cons, List.flatten_cons, List.filter_cons]
    by_cases h : (i.type == "message" && i.role == Option.some "assistant") = true
    · rw [fragmentsOf_eq i, if_pos h, if_pos h, List.flatMap_cons]
      unfold claimedPrimaryTexts at ih
      rw [← ih]
    · rw [fragmentsOf_eq i, if_neg h, if_neg h, List.nil_append]
      unfold claimedPrimaryTexts at ih
      rw [← ih]

theorem fallback_eq (output : List AzureOutputItem) :
    fallbackScan output = claimedFallbackAmended output := by
  induction output with
  | nil => rfl
  | cons i rest ih =>
    unfold claimedFallbackAmended at *
    cases hc : i.content with
    | none =>
      rw [List.find?_cons_of_neg _ (by simp [hc])]
      simpa [fallbackScan, hc] using ih
    | some cs =>
      cases cs with
      | nil =>
        rw [List.find?_cons_of_neg _ (by simp [hc])]
        simpa [fallbackScan, hc] using ih
      | cons c0 crest =>
        cases ht : c0.text with
        | none =>
          rw [List.find?_cons_of_neg _ (by simp [hc, ht])]
          simpa [fallbackScan, hc, ht] using ih
        | some t =>
          rw [List.find?_cons_of_pos _ (by simp [hc, ht])]
          simp [fallbackScan, hc, ht]

theorem mem_claimedPrimaryTexts (output : List AzureOutputItem) (t : String)
    (h : t ∈ claimedPrimaryTexts output) : t ≠ "" := by
  unfold claimedPrimaryTexts at h
  rw [List.mem_flatMap] at h
  obtain ⟨i, _, hmem⟩ := h
  rw [List.mem_filter] at hmem
  intro he
  subst he
  have : pyStrip "" = "" := rfl
  simp [this] at hmem

/-- C2 counterexample: on an envelope whose single output item (not an
assistant message) has a first content fragment with no text and a second
fragment with text `"hello"`, the claimed fallback ("the first non-empty text
found in the first item that has any content") yields `"hello"`, but the code
only inspects the first fragment of each item, finds no string there, and the
public extraction degrades to the object's string form instead. -/
theorem extract_fallback_counterexample :
    claimedExtractText cexFallbackResponse = "hello"
    ∧ AzureOpenAIResponse.extract_text cexFallbackResponse =
        AzureOpenAIResponse.strForm cexFallbackResponse
    ∧ AzureOpenAIResponse.strForm cexFallbackResponse ≠ "hello" :=
  ⟨rfl, rfl, by decide⟩

/-- C2 (amended): the primary pass is as claimed (all qualifying fragments of
assistant message items, joined with a blank line, in encounter order); the
fallback, however, scans items in order and returns the text of the *first
content fragment* of the first item whose content is non-empty and whose
first fragment's text is a string (items whose first fragment has no string
text are skipped; later fragments are never consulted; the returned text may
be empty, in which case the public entry point degrades); if neither pass
produces a non-empty string the public `extract_text()` returns the object's
string form and never raises. -/
theorem extract_text_characterization (r : AzureOpenAIResponse) :
    r.extract_text =
      (if !(claimedPrimaryTexts r.output).isEmpty then
        String.intercalate "\n\n" (claimedPrimaryTexts r.output)
      else
        match claimedFallbackAmended r.output with
        | Option.some t => if t != "" then t else r.strForm
        | Option.none => r.strForm) := by
  by_cases hout : r.output.isEmpty
  · have h0 : r.output = [] := List.isEmpty_iff.mp hout
    simp only [AzureOpenAIResponse.extract_text, azureExtractAux, h0]
    rfl
  · simp only [AzureOpenAIResponse.extract_text, azureExtractAux,
      if_neg hout, primary_flatten_eq, fallback_eq]
    by_cases hp : (claimedPrimaryTexts r.output).isEmpty
    · rw [if_pos hp, if_neg (by simp [hp])]
    · rw [if_neg hp, if_pos (by simp [hp])]
      obtain ⟨t, ts, hl⟩ : ∃ t ts, claimedPrimaryTexts r.output = t :: ts := by
        cases hc : claimedPrimaryTexts r.output with
        | nil => exact absurd (List.isEmpty_iff.mpr hc) hp
        | cons t ts => exact ⟨t, ts, rfl⟩
      have hne : String.intercalate "\n\n" (claimedPrimaryTexts r.output) ≠ "" := by
        rw [hl]
        exact intercalate_ne_empty t ts
          (mem_claimedPrimaryTexts r.output t (by rw [hl]; exact List.mem_cons_self t ts))
      simp [bne_iff_ne, hne]

/-- C10: every validated envelope extracts to a non-empty string (an empty or
missing provider-specific result is replaced by the envelope's string form,
which is never empty), so a `send` whose gateway, coercion and validation all
succeed always takes the history-committing path. -/
theorem extract_nonempty_send_always_commits (r : AzureOpenAIResponse) :
    r.extract_text ≠ ""
    ∧ ∀ (history : List ChatTurn) (prompt : String) (catalog : List ToolSpec)
        (sel : SelValue) (names : Option (List String))
        (g : List ChatTurn → Option (List ToolSpec) → Except PyErr PyVal)
        (v : PyVal → Except PyErr AzureOpenAIResponse) (raw payload : PyVal),
        g (history ++ [⟨"user", prompt⟩]) (resolveTools catalog sel names) =
            Except.ok raw →
        to_dict raw = Except.ok payload →
        v payload = Except.ok r →
        ChatService.send history prompt catalog sel names g v =
          (history ++ [⟨"user", prompt⟩, ⟨"assistant", r.extract_text⟩],
            Except.ok r.extract_text) := by
  refine ⟨extract_text_ne_empty r, ?_⟩
  intro history prompt catalog sel names g v raw payload hg hd hv
  simp only [ChatService.send]
  rw [hg]
  simp only [hd, hv, if_pos (bne_iff_ne.mpr (extract_text_ne_empty r))]

/-- Witness for the C10 theorem: a concrete successful pipeline whose
envelope extracts `"ok-text"` commits both turns. -/
theorem extract_nonempty_send_always_commits_witness :
    okTextResponse.extract_text ≠ ""
    ∧ ChatService.send [] "hi" [] SelValue.none Option.none
        (fun _ _ => Except.ok (PyVal.pydict [])) (fun _ => Except.ok okTextResponse) =
      ([⟨"user", "hi"⟩, ⟨"assistant", "ok-text"⟩], Except.ok "ok-text") :=
  ⟨(extract_nonempty_send_always_commits okTextResponse).1,
    (extract_nonempty_send_always_commits okTextResponse).2 [] "hi" [] SelValue.none
      Option.none _ _ (PyVal.pydict []) (PyVal.pydict []) rfl rfl rfl⟩

/-- C1: when `send` returns normally, the stored history gained exactly the
user turn followed by the assistant turn if the extracted text is non-empty,
and is exactly the history from before the call if the extracted text is
empty (no user turn either). -/
theorem send_commit_characterization
    (history : List ChatTurn) (prompt : String) (catalog : List ToolSpec)
    (sel : SelValue) (names : Option (List String))
    (g : List ChatTurn → Option (List ToolSpec) → Except PyErr PyVal)
    (v : PyVal → Except PyErr AzureOpenAIResponse)
    (h' : List ChatTurn) (res : String)
    (hok : ChatService.send history prompt catalog sel names g v =
      (h', Except.ok res)) :
    h' = (if res ≠ "" then history ++ [⟨"user", prompt⟩, ⟨"assistant", res⟩]
      else history) := by
  simp only [ChatService.send] at hok
  cases hg : g (history ++ [⟨"user", prompt⟩]) (resolveTools catalog sel names) with
  | error e =>
    rw [hg] at hok
    exact Except.noConfusion (congrArg Prod.snd hok)
  | ok raw =>
    rw [hg] at hok
    cases hd : to_dict raw with
    | error e =>
      simp only [hd] at hok
      exact Except.noConfusion (congrArg Prod.snd hok)
    | ok payload =>
      simp only [hd] at hok
      cases hv : v payload with
      | error e =>
        simp only [hv] at hok
        exact Except.noConfusion (congrArg Prod.snd hok)
      | ok respObj =>
        simp only [hv] at hok
        by_cases ht : respObj.extract_text = ""
        · rw [if_neg (by simp [ht])] at hok
          simp only [Prod.mk.injEq, Except.ok.injEq] at hok
          obtain ⟨hh, hr⟩ := hok
          rw [if_neg (by rw [← hr, ht]; simp)]
          exact hh.symm
        · rw [if_pos (bne_iff_ne.mpr ht)] at hok
          simp only [Prod.mk.injEq, Except.ok.injEq] at hok
          obtain ⟨hh, hr⟩ := hok
          rw [if_pos (by rw [← hr]; exact ht), ← hr]
          exact hh.symm

/-- Witness for the C1 theorem: a concrete successful `send` extracting
`"ok-text"` commits exactly the two turns in order. -/
theorem send_commit_characterization_witness :
    ChatService.send [] "hi" [] SelValue.none Option.none
        (fun _ _ => Except.ok (PyVal.pydict [])) (fun _ => Except.ok okTextResponse) =
      ([⟨"user", "hi"⟩, ⟨"assistant", "ok-text"⟩], Except.ok "ok-text")
    ∧ ([⟨"user", "hi"⟩, ⟨"assistant", "ok-text"⟩] : List ChatTurn) =
        (if ("ok-text" : String) ≠ "" then
          ([] : List ChatTurn) ++ [⟨"user", "hi"⟩, ⟨"assistant", "ok-text"⟩]
        else ([] : List ChatTurn)) :=
  ⟨rfl, send_commit_characterization [] "hi" [] SelValue.none Option.none
    (fun _ _ => Except.ok (PyVal.pydict [])) (fun _ => Except.ok okTextResponse)
    [⟨"user", "hi"⟩, ⟨"assistant", "ok-text"⟩] "ok-text" rfl⟩

/-- C7: a `parse` call that returns normally adds exactly one user turn with
the prompt to the stored history and never an assistant turn, whatever
structured result is produced. -/
theorem parse_commits_single_user_turn
    (history : List ChatTurn) (prompt : String) (catalog : List ToolSpec)
    (sel : SelValue) (names : Option (List String))
    (g : List ChatTurn → Option (List ToolSpec) → Except PyErr PyVal)
    (vp : PyVal → Except PyErr AzureOpenAIParsedResponse)
    (tfv : List (String × PyVal) → Except PyErr PyVal)
    (h' : List ChatTurn) (r : ParseResult)
    (hok : ChatService.parse history prompt catalog sel names g vp tfv =
      (h', Except.ok r)) :
    h' = history ++ [⟨"user", prompt⟩] := by
  simp only [ChatService.parse] at hok
  cases hg : g (history ++ [⟨"user", prompt⟩]) (resolveTools catalog sel names) with
  | error e =>
    rw [hg] at hok
    exact Except.noConfusion (congrArg Prod.snd hok)
  | ok raw =>
    rw [hg] at hok
    cases hd : to_dict raw with
    | error e =>
      simp only [hd] at hok
      exact Except.noConfusion (congrArg Prod.snd hok)
    | ok payload =>
      simp only [hd] at hok
      cases hv : vp payload with
      | error e =>
        simp only [hv] at hok
        exact Except.noConfusion (congrArg Prod.snd hok)
      | ok respObj =>
        simp only [hv] at hok
        cases hps : primaryStructured respObj with
        | pydict m =>
          simp only [hps] at hok
          cases htf : tfv m with
          | ok w =>
            simp only [htf] at hok
            exact (congrArg Prod.fst hok).symm
          | error e =>
            simp only [htf] at hok
            exact Except.noConfusion (congrArg Prod.snd hok)
        | pymodel c f =>
          simp only [hps] at hok
          exact (congrArg Prod.fst hok).symm
        | pynone =>
          simp only [hps] at hok
          exact (congrArg Prod.fst hok).symm
        | pybool b =>
          simp only [hps] at hok
          exact (congrArg Prod.fst hok).symm
        | pyint n =>
          simp only [hps] at hok
          exact (congrArg Prod.fst hok).symm
        | pystr s =>
          simp only [hps] at hok
          exact (congrArg Prod.fst hok).symm
        | pylist xs =>
          simp only [hps] at hok
          exact (congrArg Prod.fst hok).symm
        | pyobj a b c d e =>
          simp only [hps] at hok
          exact (congrArg Prod.fst hok).symm

/-- Witness for the C7 theorem: a concrete successful `parse` with no
structured field populated adds exactly the user turn. -/
theorem parse_commits_single_user_turn_witness :
    ChatService.parse [] "p" [] SelValue.none Option.none
        (fun _ _ => Except.ok (PyVal.pydict []))
        (fun _ => Except.ok plainParsedResponse)
        (fun m => Except.ok (PyVal.pymodel 0 m)) =
      ([⟨"user", "p"⟩], Except.ok (ParseResult.envelope plainParsedResponse))
    ∧ ([⟨"user", "p"⟩] : List ChatTurn) = [] ++ [⟨"user", "p"⟩] :=
  ⟨rfl, parse_commits_single_user_turn [] "p" [] SelValue.none Option.none
    (fun _ _ => Except.ok (PyVal.pydict []))
    (fun _ => Except.ok plainParsedResponse)
    (fun m => Except.ok (PyVal.pymodel 0 m))
    [⟨"user", "p"⟩] (ParseResult.envelope plainParsedResponse) rfl⟩

/-- C4: a failure raised by the gateway call, by the mapping coercion, or by
the envelope validation propagates unchanged out of `send`/`parse`, the
stored history is exactly what it was before the call, and the gateway is
consulted exactly once, on the single composed message list (so no retry can
be observed: the outcome depends on the gateway only through that one
value). -/
theorem pipeline_errors_propagate_uncommitted
    (history : List ChatTurn) (prompt : String) (catalog : List ToolSpec)
    (sel : SelValue) (names : Option (List String))
    (g : List ChatTurn → Option (List ToolSpec) → Except PyErr PyVal)
    (v : PyVal → Except PyErr AzureOpenAIResponse)
    (vp : PyVal → Except PyErr AzureOpenAIParsedResponse)
    (tfv : List (String × PyVal) → Except PyErr PyVal)
    (e : PyErr) (raw payload : PyVal) :
    (g (history ++ [⟨"user", prompt⟩]) (resolveTools catalog sel names) =
        Except.error e →
      ChatService.send history prompt catalog sel names g v =
        (history, Except.error e))
    ∧ (g (history ++ [⟨"user", prompt⟩]) (resolveTools catalog sel names) =
        Except.ok raw → to_dict raw = Except.error e →
      ChatService.send history prompt catalog sel names g v =
        (history, Except.error e))
    ∧ (g (history ++ [⟨"user", prompt⟩]) (resolveTools catalog sel names) =
        Except.ok raw → to_dict raw = Except.ok payload →
        v payload = Except.error e →
      ChatService.send history prompt catalog sel names g v =
        (history, Except.error e))
    ∧ (g (history ++ [⟨"user", prompt⟩]) (resolveTools catalog sel names) =
        Except.error e →
      ChatService.parse history prompt catalog sel names g vp tfv =
        (history, Except.error e))
    ∧ (g (history ++ [⟨"user", prompt⟩]) (resolveTools catalog sel names) =
        Except.ok raw → to_dict raw = Except.error e →
      ChatService.parse history prompt catalog sel names g vp tfv =
        (history, Except.error e))
    ∧ (g (history ++ [⟨"user", prompt⟩]) (resolveTools catalog sel names) =
        Except.ok raw → to_dict raw = Except.ok payload →
        vp payload = Except.error e →
      ChatService.parse history prompt catalog sel names g vp tfv =
        (history, Except.error e))
    ∧ (∀ g₂ : List ChatTurn → Option (List ToolSpec) → Except PyErr PyVal,
        g (history ++ [⟨"user", prompt⟩]) (resolveTools catalog sel names) =
          g₂ (history ++ [⟨"user", prompt⟩]) (resolveTools catalog sel names) →
      ChatService.send history prompt catalog sel names g v =
        ChatService.send history prompt catalog sel names g₂ v)
    ∧ (∀ g₂ : List ChatTurn → Option (List ToolSpec) → Except PyErr PyVal,
        g (history ++ [⟨"user", prompt⟩]) (resolveTools catalog sel names) =
          g₂ (history ++ [⟨"user", prompt⟩]) (resolveTools catalog sel names) →
      ChatService.parse history prompt catalog sel names g vp tfv =
        ChatService.parse history prompt catalog sel names g₂ vp tfv) := by
  refine ⟨?_, ?_, ?_, ?_, ?_, ?_, ?_, ?_⟩
  · intro hg
    simp only [ChatService.send]
    rw [hg]
  · intro hg hd
    simp only [ChatService.send]
    rw [hg]
    simp only [hd]
  · intro hg hd hv
    simp only [ChatService.send]
    rw [hg]
    simp only [hd, hv]
  · intro hg
    simp only [ChatService.parse]
    rw [hg]
  · intro hg hd
    simp only [ChatService.parse]
    rw [hg]
    simp only [hd]
  · intro hg hd hv
    simp only [ChatService.parse]
    rw [hg]
    simp only [hd, hv]
  · intro g₂ hgg
    simp only [ChatService.send]
    rw [hgg]
  · intro g₂ hgg
    simp only [ChatService.parse]
    rw [hgg]

/-- Witness for the C4 theorem: each failure point exercised at a concrete
input — a failing gateway, a gateway result the coercion rejects (a non-JSON
string), a payload the validation rejects, and two gateways that agree on the
one composed call. -/
theorem pipeline_errors_propagate_uncommitted_witness :
    ChatService.send [] "hi" [] SelValue.none Option.none
        (fun _ _ => Except.error (PyErr.providerError "boom"))
        (fun _ => Except.ok okTextResponse) =
      ([], Except.error (PyErr.providerError "boom"))
    ∧ ChatService.send [] "hi" [] SelValue.none Option.none
        (fun _ _ => Except.ok (PyVal.pystr "not json"))
        (fun _ => Except.ok okTextResponse) =
      ([], Except.error (PyErr.jsonDecodeError "Expecting value"))
    ∧ ChatService.send [] "hi" [] SelValue.none Option.none
        (fun _ _ => Except.ok (PyVal.pydict []))
        (fun _ => Except.error (PyErr.validationError "bad payload")) =
      ([], Except.error (PyErr.validationError "bad payload"))
    ∧ ChatService.parse [] "hi" [] SelValue.none Option.none
        (fun _ _ => Except.error (PyErr.providerError "boom"))
        (fun _ => Except.ok plainParsedResponse)
        (fun m => Except.ok (PyVal.pymodel 0 m)) =
      ([], Except.error (PyErr.providerError "boom"))
    ∧ ChatService.parse [] "hi" [] SelValue.none Option.none
        (fun _ _ => Except.ok (PyVal.pydict []))
        (fun _ => Except.error (PyErr.validationError "bad payload"))
        (fun m => Except.ok (PyVal.pymodel 0 m)) =
      ([], Except.error (PyErr.validationError "bad payload"))
    ∧ ChatService.send [] "hi" [] SelValue.none Option.none
        (fun _ _ => Except.ok (PyVal.pydict []))
        (fun _ => Except.ok okTextResponse) =
      ChatService.send [] "hi" [] SelValue.none Option.none
        (fun msgs _ => if msgs.isEmpty then Except.error (PyErr.providerError "x")
          else Except.ok (PyVal.pydict []))
        (fun _ => Except.ok okTextResponse) := by
  refine ⟨?_, ?_, ?_, ?_, ?_, ?_⟩
  · exact (pipeline_errors_propagate_uncommitted [] "hi" [] SelValue.none Option.none
      (fun _ _ => Except.error (PyErr.providerError "boom"))
      (fun _ => Except.ok okTextResponse) (fun _ => Except.ok plainParsedResponse)
      (fun m => Except.ok (PyVal.pymodel 0 m))
      (PyErr.providerError "boom") PyVal.pynone PyVal.pynone).1 rfl
  · exact (pipeline_errors_propagate_uncommitted [] "hi" [] SelValue.none Option.none
      (fun _ _ => Except.ok (PyVal.pystr "not json"))
      (fun _ => Except.ok okTextResponse) (fun _ => Except.ok plainParsedResponse)
      (fun m => Except.ok (PyVal.pymodel 0 m))
      (PyErr.jsonDecodeError "Expecting value") (PyVal.pystr "not json")
      PyVal.pynone).2.1 rfl rfl
  · exact (pipeline_errors_propagate_uncommitted [] "hi" [] SelValue.none Option.none
      (fun _ _ => Except.ok (PyVal.pydict []))
      (fun _ => Except.error (PyErr.validationError "bad payload"))
      (fun _ => Except.ok plainParsedResponse)
      (fun m => Except.ok (PyVal.pymodel 0 m))
      (PyErr.validationError "bad payload") (PyVal.pydict [])
      (PyVal.pydict [])).2.2.1 rfl rfl rfl
  · exact (pipeline_errors_propagate_uncommitted [] "hi" [] SelValue.none Option.none
      (fun _ _ => Except.error (PyErr.providerError "boom"))
      (fun _ => Except.ok okTextResponse) (fun _ => Except.ok plainParsedResponse)
      (fun m => Except.ok (PyVal.pymodel 0 m))
      (PyErr.providerError "boom") PyVal.pynone PyVal.pynone).2.2.2.1 rfl
  · exact (pipeline_errors_propagate_uncommitted [] "hi" [] SelValue.none Option.none
      (fun _ _ => Except.ok (PyVal.pydict []))
      (fun _ => Except.ok okTextResponse)
      (fun _ => Except.error (PyErr.validationError "bad payload"))
      (fun m => Except.ok (PyVal.pymodel 0 m))
      (PyErr.validationError "bad payload") (PyVal.pydict [])
      (PyVal.pydict [])).2.2.2.2.2.1 rfl rfl rfl
  · exact (pipeline_errors_propagate_uncommitted [] "hi" [] SelValue.none Option.none
      (fun _ _ => Except.ok (PyVal.pydict []))
      (fun _ => Except.ok okTextResponse) (fun _ => Except.ok plainParsedResponse)
      (fun m => Except.ok (PyVal.pymodel 0 m))
      (PyErr.providerError "x") PyVal.pynone PyVal.pynone).2.2.2.2.2.2.1
      (fun msgs _ => if msgs.isEmpty then Except.error (PyErr.providerError "x")
        else Except.ok (PyVal.pydict [])) rfl

/-- C5 counterexample: with `text_format` class `0` and a validated envelope
whose primary structured field is a model instance of a *different* class
(`1`), the claim's priority (a)-(c) prescribes returning the envelope object
itself, but the code returns the foreign model instance (its test is
`isinstance(parsed, BaseModel)`, not membership in `text_format`). -/
theorem parse_dispatch_counterexample :
    primaryStructured cexParsedResponse = PyVal.pymodel 1 []
    ∧ claimedParseDispatch 0 (fun m => Except.ok (PyVal.pymodel 0 m))
        cexParsedResponse = Except.ok (ParseResult.envelope cexParsedResponse)
    ∧ ChatService.parse [] "p" [] SelValue.none Option.none
        (fun _ _ => Except.ok (PyVal.pydict []))
        (fun _ => Except.ok cexParsedResponse)
        (fun m => Except.ok (PyVal.pymodel 0 m)) =
      ([⟨"user", "p"⟩], Except.ok (ParseResult.structured (PyVal.pymodel 1 [])))
    ∧ (ParseResult.structured (PyVal.pymodel 1 []) ≠
        ParseResult.envelope cexParsedResponse) :=
  ⟨rfl, rfl, rfl, fun h => ParseResult.noConfusion h⟩

/-- C5 (amended): after successful gateway call, coercion and envelope
validation, `parse` returns by this priority over the primary structured
field: (a) if it is an instance of the pydantic model base class — any model
instance, not necessarily of `text_format` — it is returned; (b) else if it
is a plain mapping, the mapping is validated against `text_format` and that
result (or its failure) is returned; (c) else the envelope object itself is
returned unmodified. -/
theorem parse_structured_dispatch
    (history : List ChatTurn) (prompt : String) (catalog : List ToolSpec)
    (sel : SelValue) (names : Option (List String))
    (g : List ChatTurn → Option (List ToolSpec) → Except PyErr PyVal)
    (vp : PyVal → Except PyErr AzureOpenAIParsedResponse)
    (tfv : List (String × PyVal) → Except PyErr PyVal)
    (raw payload : PyVal) (respObj : AzureOpenAIParsedResponse)
    (hg : g (history ++ [⟨"user", prompt⟩]) (resolveTools catalog sel names) =
      Except.ok raw)
    (hd : to_dict raw = Except.ok payload)
    (hv : vp payload = Except.ok respObj) :
    (isModelInstance (primaryStructured respObj) = true →
      ChatService.parse history prompt catalog sel names g vp tfv =
        (history ++ [⟨"user", prompt⟩],
          Except.ok (ParseResult.structured (primaryStructured respObj))))
    ∧ (∀ m, primaryStructured respObj = PyVal.pydict m →
      ChatService.parse history prompt catalog sel names g vp tfv =
        (history ++ [⟨"user", prompt⟩], (tfv m).map ParseResult.structured))
    ∧ (isModelInstance (primaryStructured respObj) = false →
        isPlainMapping (primaryStructured respObj) = false →
      ChatService.parse history prompt catalog sel names g vp tfv =
        (history ++ [⟨"user", prompt⟩],
          Except.ok (ParseResult.envelope respObj))) := by
  refine ⟨?_, ?_, ?_⟩
  · intro hm
    simp only [ChatService.parse]
    rw [hg]
    simp only [hd, hv]
    cases hps : primaryStructured respObj with
    | pymodel c f => rfl
    | pynone => rw [hps] at hm; exact Bool.noConfusion hm
    | pybool b => rw [hps] at hm; exact Bool.noConfusion hm
    | pyint n => rw [hps] at hm; exact Bool.noConfusion hm
    | pystr s => rw [hps] at hm; exact Bool.noConfusion hm
    | pylist xs => rw [hps] at hm; exact Bool.noConfusion hm
    | pydict m => rw [hps] at hm; exact Bool.noConfusion hm
    | pyobj a b c d e => rw [hps] at hm; exact Bool.noConfusion hm
  · intro m hps
    simp only [ChatService.parse]
    rw [hg]
    simp only [hd, hv, hps]
    cases htf : tfv m with
    | ok w => simp [htf, Except.map]
    | error e => simp [htf, Except.map]
  · intro hm hp
    simp only [ChatService.parse]
    rw [hg]
    simp only [hd, hv]
    cases hps : primaryStructured respObj with
    | pymodel c f => rw [hps] at hm; exact Bool.noConfusion hm
    | pydict m => rw [hps] at hp; exact Bool.noConfusion hp
    | pynone => rfl
    | pybool b => rfl
    | pyint n => rfl
    | pystr s => rfl
    | pylist xs => rfl
    | pyobj a b c d e => rfl

/-- Witness for the amended C5 theorem: the three dispatch outcomes at
concrete envelopes — a foreign model instance returned as-is, a mapping
validated against the target schema, and an empty structured field handing
back the envelope. -/
theorem parse_structured_dispatch_witness :
    ChatService.parse [] "p" [] SelValue.none Option.none
        (fun _ _ => Except.ok (PyVal.pydict []))
        (fun _ => Except.ok cexParsedResponse)
        (fun m => Except.ok (PyVal.pymodel 0 m)) =
      ([⟨"user", "p"⟩], Except.ok (ParseResult.structured (PyVal.pymodel 1 [])))
    ∧ ChatService.parse [] "p" [] SelValue.none Option.none
        (fun _ _ => Except.ok (PyVal.pydict []))
        (fun _ => Except.ok dictParsedResponse)
        (fun m => Except.ok (PyVal.pymodel 0 m)) =
      ([⟨"user", "p"⟩],
        Except.ok (ParseResult.structured (PyVal.pymodel 0 [("foo", PyVal.pyint 7)])))
    ∧ ChatService.parse [] "p" [] SelValue.none Option.none
        (fun _ _ => Except.ok (PyVal.pydict []))
        (fun _ => Except.ok plainParsedResponse)
        (fun m => Except.ok (PyVal.pymodel 0 m)) =
      ([⟨"user", "p"⟩], Except.ok (ParseResult.envelope plainParsedResponse)) :=
  ⟨(parse_structured_dispatch [] "p" [] SelValue.none Option.none
      (fun _ _ => Except.ok (PyVal.pydict []))
      (fun _ => Except.ok cexParsedResponse)
      (fun m => Except.ok (PyVal.pymodel 0 m))
      (PyVal.pydict []) (PyVal.pydict []) cexParsedResponse rfl rfl rfl).1 rfl,
    (parse_structured_dispatch [] "p" [] SelValue.none Option.none
      (fun _ _ => Except.ok (PyVal.pydict []))
      (fun _ => Except.ok dictParsedResponse)
      (fun m => Except.ok (PyVal.pymodel 0 m))
      (PyVal.pydict []) (PyVal.pydict []) dictParsedResponse rfl rfl rfl).2.1
      [("foo", PyVal.pyint 7)] rfl,
    (parse_structured_dispatch [] "p" [] SelValue.none Option.none
      (fun _ _ => Except.ok (PyVal.pydict []))
      (fun _ => Except.ok plainParsedResponse)
      (fun m => Except.ok (PyVal.pymodel 0 m))
      (PyVal.pydict []) (PyVal.pydict []) plainParsedResponse rfl rfl rfl).2.2
      rfl rfl⟩

/-- C8: the coercion chain evaluated — a mapping passes through unchanged, a
model is dumped, a JSON object string is decoded — but the claim's
"never raises, last resort wraps under `raw`" is false: a non-JSON string
raises `json.JSONDecodeError` out of `to_dict` (the string branch calls
`json.loads` with no handler), contradicting the function's own docstring,
which promises `{"raw": str(value)}` whenever the input cannot be converted.
Only inputs that reach the genuine last-resort branch (non-string,
non-mapping, attribute-less values) are raw-wrapped. -/
theorem to_dict_coercion_behaviour :
    to_dict (PyVal.pydict [("k", PyVal.pyint 1)]) =
        Except.ok (PyVal.pydict [("k", PyVal.pyint 1)])
    ∧ to_dict (PyVal.pymodel 7 [("k", PyVal.pyint 1)]) =
        Except.ok (PyVal.pydict [("k", PyVal.pyint 1)])
    ∧ to_dict (PyVal.pystr "\x7b\"a\": 1\x7d") =
        Except.ok (PyVal.pydict [("a", PyVal.pyint 1)])
    ∧ to_dict (PyVal.pystr "not json") =
        Except.error (PyErr.jsonDecodeError "Expecting value")
    ∧ to_dict PyVal.pynone =
        Except.ok (PyVal.pydict [("raw", PyVal.pystr "None")]) :=
  ⟨rfl, rfl, rfl, rfl, rfl⟩

/-- C9 counterexample: the history read is a *shallow* copy, so a caller
mutation of an element the snapshot refers to (writing the shared turn
record) changes what a subsequent read of the stored history yields. -/
theorem history_snapshot_element_aliasing :
    internalHistoryView sampleWorld = [{ role := "user", content := "hi" }]
    ∧ internalHistoryView
        (applyMutations sampleWorld (readHistorySnapshot sampleWorld)
          [SnapMutation.setTurn 0 { role := "user", content := "hacked" }]).1 =
        [{ role := "user", content := "hacked" }]
    ∧ ({ role := "user", content := "hacked" } : ChatTurn) ≠
        { role := "user", content := "hi" } :=
  ⟨rfl, rfl, by decide⟩

theorem applyMutations_structural_fst (ms : List SnapMutation) :
    ∀ (w : HistoryWorld) (snap : List Nat), (∀ m ∈ ms, structuralOnly m = true) →
      (applyMutations w snap ms).1 = w := by
  induction ms with
  | nil => intro w snap _; rfl
  | cons m ms ih =>
    intro w snap h
    cases m with
    | insertRef i a =>
      exact ih w (snap.insertIdx i a) (fun m hm => h m (List.mem_cons_of_mem _ hm))
    | removeRef i =>
      exact ih w (snap.eraseIdx i) (fun m hm => h m (List.mem_cons_of_mem _ hm))
    | setTurn i t =>
      exact absurd (h _ (List.mem_cons_self _ _)) (by simp [structuralOnly])

/-- C9 (amended): mutations of the returned snapshot *list itself* (insert,
remove, reorder) never affect subsequent reads of the stored history — the
returned list is fresh; but element-level mutations are shared, because the
copy is shallow. -/
theorem history_snapshot_structural_immune (w : HistoryWorld)
    (ms : List SnapMutation) (h : ∀ m ∈ ms, structuralOnly m = true) :
    internalHistoryView
        (applyMutations w (readHistorySnapshot w) ms).1 = internalHistoryView w := by
  rw [applyMutations_structural_fst ms w (readHistorySnapshot w) h]

/-- Witness for the amended C9 theorem: inserting into and deleting from a
concrete snapshot leaves the stored history's reads unchanged. -/
theorem history_snapshot_structural_immune_witness :
    (∀ m ∈ [SnapMutation.insertRef 0 5, SnapMutation.removeRef 1],
      structuralOnly m = true)
    ∧ internalHistoryView
        (applyMutations sampleWorld (readHistorySnapshot sampleWorld)
          [SnapMutation.insertRef 0 5, SnapMutation.removeRef 1]).1 =
      internalHistoryView sampleWorld :=
  ⟨by intro m hm; fin_cases hm <;> rfl,
    history_snapshot_structural_immune sampleWorld
      [SnapMutation.insertRef 0 5, SnapMutation.removeRef 1]
      (by intro m hm; fin_cases hm <;> rfl)⟩
